import Mathlib

/-!
Verification of the two valuation engines of the financialmodeling
repository: the DCF engine (analytics-engine/src/models/DCFModel.js) and the
LBO engine with its Newton–Raphson IRR solver (LBOModel.js).  JavaScript
numbers are modelled as rationals; the JS idiom `x || d` (zero and undefined
fall back to the default) is modelled explicitly, and functions that can
throw are modelled as `Except String`.  Division by zero, which in JS yields
Infinity/NaN without raising, is total in ℚ (yielding 0); no theorem below
depends on the value of a division by zero except where explicitly noted.
-/

namespace FinModel

/-- Equality of `Except` results is decidable when both components' is, so
concrete engine runs can be settled by evaluation. -/
instance {ε α : Type} [DecidableEq ε] [DecidableEq α] : DecidableEq (Except ε α) :=
  fun a b =>
    match a, b with
    | .ok x, .ok y => decidable_of_iff (x = y) (by simp)
    | .error e, .error f => decidable_of_iff (e = f) (by simp)
    | .ok _, .error _ => isFalse (by simp)
    | .error _, .ok _ => isFalse (by simp)

/-- JavaScript `x || d` on a number already read: `0` is falsy and falls back
to the default `d`. -/
def jsOr (x d : ℚ) : ℚ := if x = 0 then d else x

/-- JavaScript `l[i] || d`: an out-of-range read gives `undefined`, and both
`undefined` and `0` fall back to the default `d`. -/
def getOr (l : List ℚ) (i : ℕ) (d : ℚ) : ℚ :=
  match l[i]? with
  | some x => if x = 0 then d else x
  | none => d

theorem getOr_eq_getD_of_ne_zero (l : List ℚ) (i : ℕ) (d : ℚ)
    (hz : l.getD i 0 ≠ 0) : getOr l i d = l.getD i 0 := by
  unfold getOr
  rw [List.getD_eq_getElem?_getD] at *
  cases h : l[i]? with
  | none => simp [h] at hz
  | some x =>
    simp only [h, Option.getD_some] at hz ⊢
    simp [hz]

theorem getOr_zero_eq_getD (l : List ℚ) (i : ℕ) : getOr l i 0 = l.getD i 0 := by
  unfold getOr
  rw [List.getD_eq_getElem?_getD]
  cases h : l[i]? with
  | none => simp [h]
  | some x =>
    simp only [h, Option.getD_some]
    split <;> simp_all

theorem getOr_eq_default (l : List ℚ) (i : ℕ) (d : ℚ)
    (hz : l.getD i 0 = 0) : getOr l i d = d := by
  unfold getOr
  rw [List.getD_eq_getElem?_getD] at hz
  cases h : l[i]? with
  | none => simp [h]
  | some x =>
    simp only [h, Option.getD_some] at hz
    simp [h, hz]

/-- JavaScript `Math.abs`. -/
def absQ (x : ℚ) : ℚ := if x < 0 then -x else x

theorem absQ_nonneg_eq (x : ℚ) (h : 0 ≤ x) : absQ x = x := by
  unfold absQ
  rw [if_neg (by linarith)]

/-! ## DCF engine data model (DCFModel.js) -/

/-- Company baseline figures read from `financialData` (DCFModel.js lines
25–38); a missing field reads as 0 through `|| 0`, so plain rationals
suffice. -/
structure FinancialSnapshot where
  revenue : ℚ
  sharesOutstanding : ℚ
  currentPrice : ℚ
deriving Repr, DecidableEq

/-- The five per-year assumption sequences of the `projections` argument.  In
the JS object each array may be absent, which makes any indexing of it throw;
`none` models an absent array. -/
structure Projections where
  revenueGrowth : Option (List ℚ)
  ebitdaMargin : Option (List ℚ)
  depreciation : Option (List ℚ)
  capex : Option (List ℚ)
  workingCapitalChange : Option (List ℚ)
deriving Repr, DecidableEq

/-- The five sequences once known to be present (the shape
`generateRandomProjections` always produces). -/
structure ProjectionLists where
  revenueGrowth : List ℚ
  ebitdaMargin : List ℚ
  depreciation : List ℚ
  capex : List ℚ
  workingCapitalChange : List ℚ
deriving Repr, DecidableEq

/-- Wraps present sequences back into the optional-field shape. -/
def toProjections (p : ProjectionLists) : Projections :=
  ⟨some p.revenueGrowth, some p.ebitdaMargin, some p.depreciation,
    some p.capex, some p.workingCapitalChange⟩

/-- The DCFModel instance configuration (constructor, DCFModel.js lines
6–11). -/
structure DCFConfig where
  discountRate : ℚ
  terminalGrowthRate : ℚ
  projectionYears : ℕ
  taxRate : ℚ
deriving Repr, DecidableEq

/-- One entry of `projectedCashFlows` (DCFModel.js lines 54–62). -/
structure YearRecord where
  year : ℕ
  revenue : ℚ
  ebitda : ℚ
  ebit : ℚ
  nopat : ℚ
  freeCashFlow : ℚ
  presentValue : ℚ
deriving Repr, DecidableEq

def zeroRecord : YearRecord := ⟨0, 0, 0, 0, 0, 0, 0⟩

/-- The DCF result object (DCFModel.js lines 21–35); the `assumptions` echo
of the configuration is omitted, being a verbatim copy of `DCFConfig`. -/
structure DCFResult where
  projectedCashFlows : List YearRecord
  terminalValue : ℚ
  presentValue : ℚ
  sharesOutstanding : ℚ
  intrinsicValue : ℚ
  currentPrice : ℚ
  upside : ℚ
deriving Repr, DecidableEq

def zeroDCFResult : DCFResult := ⟨[], 0, 0, 0, 0, 0, 0⟩

/-- One iteration of the projection loop (DCFModel.js lines 41–66): the body
for a given `year` (1-based) and the previous year's revenue. -/
def dcfYear (p : ProjectionLists) (taxRate discountRate : ℚ) (year : ℕ)
    (lastRevenue : ℚ) : YearRecord :=
  let revenueGrowth := getOr p.revenueGrowth (year - 1) 0
  let revenue := lastRevenue * (1 + revenueGrowth)
  let ebitda := revenue * getOr p.ebitdaMargin (year - 1) (15/100)
  let depreciation := getOr p.depreciation (year - 1) (revenue * (3/100))
  let ebit := ebitda - depreciation
  let tax := ebit * taxRate
  let nopat := ebit - tax
  let capex := getOr p.capex (year - 1) (revenue * (4/100))
  let workingCapitalChange := getOr p.workingCapitalChange (year - 1) 0
  let freeCashFlow := nopat + depreciation - capex - workingCapitalChange
  let presentValue := freeCashFlow / (1 + discountRate) ^ year
  ⟨year, revenue, ebitda, ebit, nopat, freeCashFlow, presentValue⟩

/-- The projection loop: `n` years still to run, the current `year`, and the
carried `lastRevenue`. -/
def dcfRecords (p : ProjectionLists) (taxRate discountRate : ℚ) :
    ℕ → ℕ → ℚ → List YearRecord
  | 0, _, _ => []
  | n + 1, year, lastRevenue =>
    let row := dcfYear p taxRate discountRate year lastRevenue
    row :: dcfRecords p taxRate discountRate n (year + 1) row.revenue

/-- Terminal value by the Gordon growth formula (DCFModel.js lines 69–70):
`fcfN × (1 + g) / (r − g)`. -/
def terminalValueFormula (fcfN g r : ℚ) : ℚ := fcfN * (1 + g) / (r - g)

/-- The body of `calculateDCF` on well-formed projections (DCFModel.js lines
21–83). -/
def calculateDCFCore (snap : FinancialSnapshot) (p : ProjectionLists)
    (cfg : DCFConfig) : DCFResult :=
  let recs := dcfRecords p cfg.taxRate cfg.discountRate cfg.projectionYears 1 snap.revenue
  let totalPV := (recs.map YearRecord.presentValue).sum
  let terminalValue :=
    terminalValueFormula ((recs.getD (cfg.projectionYears - 1) zeroRecord).freeCashFlow)
      cfg.terminalGrowthRate cfg.discountRate
  let terminalPV := terminalValue / (1 + cfg.discountRate) ^ cfg.projectionYears
  let presentValue := totalPV + terminalPV
  let intrinsicValue :=
    if 0 < snap.sharesOutstanding then presentValue / snap.sharesOutstanding else 0
  let upside :=
    if 0 < snap.sharesOutstanding ∧ 0 < snap.currentPrice then
      (intrinsicValue - snap.currentPrice) / snap.currentPrice
    else 0
  ⟨recs, terminalValue, presentValue, snap.sharesOutstanding, intrinsicValue,
    snap.currentPrice, upside⟩

def dcfErrorMsg : String := "DCF calculation failed"

/-- `calculateDCF` (DCFModel.js lines 19–88).  The body runs in a try/catch
that rethrows with the message prefix "DCF calculation failed"; for numeric
inputs the only JS exceptions are indexing an absent assumption array (lines
42–51) and reading the terminal record of an empty projection list (line 69,
reachable only when the loop ran zero times). -/
def calculateDCF (snap : FinancialSnapshot) (proj : Projections)
    (cfg : DCFConfig) : Except String DCFResult :=
  if cfg.projectionYears = 0 then .error dcfErrorMsg
  else
    match proj.revenueGrowth, proj.ebitdaMargin, proj.depreciation,
        proj.capex, proj.workingCapitalChange with
    | some g, some m, some d, some c, some w =>
      .ok (calculateDCFCore snap ⟨g, m, d, c, w⟩ cfg)
    | _, _, _, _, _ => .error dcfErrorMsg

/-! ## LBO engine data model (LBOModel.js) -/

/-- The `interestRates` object consumed by `calculateInterestExpense`
(LBOModel.js lines 161–168); an absent rate reads as 0 through the falsy
fallback chain. -/
structure InterestRates where
  weighted : ℚ
  termLoanA : ℚ
  termLoanB : ℚ
  subordinated : ℚ
deriving Repr, DecidableEq

/-- The `dealParams` object destructured by `calculateLBO` (LBOModel.js
lines 20–34 plus the fields read later: `baseRevenue`, `interestRates`,
`taxRate`, `debtPaydownRate`).  Scalar fields read through `|| default` are
plain rationals with 0 standing for a missing value. -/
structure LBOParams where
  enterpriseValue : ℚ
  ebitda : ℚ
  revolver : ℚ
  termLoanA : ℚ
  termLoanB : ℚ
  subordinatedDebt : ℚ
  exitMultiple : ℚ
  revenueGrowth : List ℚ
  ebitdaMargin : List ℚ
  capexAsPercentOfRevenue : List ℚ
  workingCapitalChange : List ℚ
  fees : ℚ
  baseRevenue : ℚ
  interestRates : InterestRates
  taxRate : ℚ
  debtPaydownRate : ℚ
deriving Repr, DecidableEq

/-- The LBOModel instance configuration (constructor, LBOModel.js lines
6–11). -/
structure LBOConfig where
  targetIRR : ℚ
  holdPeriod : ℕ
  maxDebtMultiple : ℚ
  minEquityContribution : ℚ
deriving Repr, DecidableEq

/-- The per-year `creditMetrics` object (LBOModel.js lines 97–101).  In JS a
zero denominator yields Infinity/NaN without raising; in ℚ it yields 0 — in
neither semantics does the division throw. -/
structure CreditMetrics where
  debtToEbitda : ℚ
  ebitdaToInterest : ℚ
  fcfToDebt : ℚ
deriving Repr, DecidableEq

/-- One entry of `results.projections` (LBOModel.js lines 87–102). -/
structure YearProjection where
  year : ℕ
  revenue : ℚ
  ebitda : ℚ
  ebit : ℚ
  netIncome : ℚ
  freeCashFlow : ℚ
  debtBalance : ℚ
  debtPaydown : ℚ
  cashToSponsor : ℚ
  creditMetrics : CreditMetrics
deriving Repr, DecidableEq

def zeroProjection : YearProjection := ⟨0, 0, 0, 0, 0, 0, 0, 0, 0, ⟨0, 0, 0⟩⟩

/-- `calculateInterestExpense` (LBOModel.js lines 161–168): the weighted
rate, else the tranche-weighted fallback, else a flat 8%. -/
def calculateInterestExpense (totalDebt : ℚ) (r : InterestRates) : ℚ :=
  totalDebt *
    jsOr r.weighted
      (jsOr (r.termLoanA * (3/10) + r.termLoanB * (1/2) + r.subordinated * (1/5)) (2/25))

/-- Sources total (LBOModel.js line 46). -/
def lboTotalDebt (p : LBOParams) : ℚ :=
  p.revolver + p.termLoanA + p.termLoanB + p.subordinatedDebt

/-- Equity contribution (LBOModel.js line 47). -/
def lboEquityContribution (p : LBOParams) : ℚ :=
  p.enterpriseValue - lboTotalDebt p + p.fees

/-- Year-0 baseline revenue (LBOModel.js line 67). -/
def lboBaseRevenue (p : LBOParams) : ℚ :=
  jsOr p.baseRevenue (p.ebitda / jsOr (p.ebitdaMargin.getD 0 0) (1/5))

/-- Projected revenue (LBOModel.js line 71): the unchanged baseline times
`(1 + revenueGrowth[year−1]) ^ year` — `currentRevenue` is never reassigned
inside the loop, so growth compounds against the constant baseline. -/
def lboRevenue (p : LBOParams) (year : ℕ) : ℚ :=
  if year = 0 then lboBaseRevenue p
  else lboBaseRevenue p * (1 + p.revenueGrowth.getD (year - 1) 0) ^ year

/-- One iteration of the projection loop (LBOModel.js lines 70–103) for a
given year and the debt balance carried into it.  The recorded
`debtBalance` and the `debtToEbitda`/`fcfToDebt` ratios use the balance
after this year's paydown, as the JS updates `currentDebt` before pushing. -/
def lboYear (p : LBOParams) (year : ℕ) (currentDebt : ℚ) : YearProjection :=
  let revenue := lboRevenue p year
  let ebitdaAmount := revenue * jsOr (p.ebitdaMargin.getD year 0) (p.ebitdaMargin.getD 0 0)
  let capex := revenue * jsOr (p.capexAsPercentOfRevenue.getD year 0) (3/100)
  let depreciation := capex
  let ebit := ebitdaAmount - depreciation
  let interest := calculateInterestExpense currentDebt p.interestRates
  let ebt := ebit - interest
  let taxes := max 0 (ebt * jsOr p.taxRate (1/4))
  let netIncome := ebt - taxes
  let freeCashFlow := netIncome + depreciation - capex - p.workingCapitalChange.getD year 0
  let debtPaydown := max 0 (freeCashFlow * jsOr p.debtPaydownRate (1/2))
  let cashToSponsor := freeCashFlow - debtPaydown
  let newDebt := max 0 (currentDebt - debtPaydown)
  ⟨year, revenue, ebitdaAmount, ebit, netIncome, freeCashFlow, newDebt, debtPaydown,
    cashToSponsor,
    ⟨newDebt / ebitdaAmount, ebitdaAmount / interest, freeCashFlow / newDebt⟩⟩

/-- The projection loop: `n` rows still to build, the current year and the
carried debt balance. -/
def lboProjectionsAux (p : LBOParams) : ℕ → ℕ → ℚ → List YearProjection
  | 0, _, _ => []
  | n + 1, year, debt =>
    let row := lboYear p year debt
    row :: lboProjectionsAux p n (year + 1) row.debtBalance

/-- The full projection table, years 0..holdPeriod (LBOModel.js lines
66–103). -/
def lboProjections (p : LBOParams) (cfg : LBOConfig) : List YearProjection :=
  lboProjectionsAux p (cfg.holdPeriod + 1) 0 (lboTotalDebt p)

/-! ## Newton–Raphson IRR solver (LBOModel.js lines 177–211) -/

def irrTolerance : ℚ := 1 / 1000000

/-- The solver's accumulation loop over the stream, carrying the index `i`
(LBOModel.js lines 190–194): adds `CF_i / (1+rate)^i`. -/
def npvAux (rate : ℚ) : List ℚ → ℕ → ℚ
  | [], _ => 0
  | cf :: cfs, i => cf / (1 + rate) ^ i + npvAux rate cfs (i + 1)

/-- NPV of a cash-flow stream at a rate: `Σ CF_i / (1+rate)^i` (LBOModel.js
lines 190–192). -/
def npvAt (cashFlows : List ℚ) (rate : ℚ) : ℚ := npvAux rate cashFlows 0

/-- The derivative accumulation: adds `−i·CF_i / (1+rate)^(i+1)` (LBOModel.js
line 193). -/
def npvDerivAux (rate : ℚ) : List ℚ → ℕ → ℚ
  | [], _ => 0
  | cf :: cfs, i => -((Nat.cast i : ℚ) * cf / (1 + rate) ^ (i + 1)) + npvDerivAux rate cfs (i + 1)

/-- NPV derivative accumulated by the solver: `Σ −i·CF_i / (1+rate)^(i+1)`
(LBOModel.js line 193). -/
def npvDerivAt (cashFlows : List ℚ) (rate : ℚ) : ℚ := npvDerivAux rate cashFlows 0

/-- One Newton update: `rate − NPV(rate) / NPV'(rate)` (LBOModel.js line
202). -/
def newtonStep (cashFlows : List ℚ) (rate : ℚ) : ℚ :=
  rate - npvAt cashFlows rate / npvDerivAt cashFlows rate

/-- The sequence of unguarded Newton iterates from a starting rate. -/
def newtonIter (cashFlows : List ℚ) (rate : ℚ) : ℕ → ℚ
  | 0 => rate
  | k + 1 => newtonIter cashFlows (newtonStep cashFlows rate) k

def derivErrorMsg : String := "IRR calculation failed: derivative too small"

def maxIterErrorMsg : String := "IRR calculation failed: maximum iterations reached"

/-- The solver loop (LBOModel.js lines 186–208) with the remaining iteration
budget as fuel: return the rate once `|NPV| < 1e-6`; throw on a near-zero
derivative; throw when the budget is exhausted. -/
def irrGo (cashFlows : List ℚ) : ℚ → ℕ → Except String ℚ
  | _, 0 => .error maxIterErrorMsg
  | rate, fuel + 1 =>
    if absQ (npvAt cashFlows rate) < irrTolerance then .ok rate
    else if absQ (npvDerivAt cashFlows rate) < irrTolerance then .error derivErrorMsg
    else irrGo cashFlows (newtonStep cashFlows rate) fuel

/-- Runs the solver from the starting guess 0.15 with the 1000-iteration
budget (LBOModel.js lines 181–183). -/
def calculateIRRStream (cashFlows : List ℚ) : Except String ℚ :=
  irrGo cashFlows (3/20) 1000

/-- Appends the terminal value onto the last element, as
`allCashFlows[allCashFlows.length − 1] += terminalValue` does (LBOModel.js
line 179). -/
def addToLast (l : List ℚ) (v : ℚ) : List ℚ :=
  match l with
  | [] => []
  | [x] => [x + v]
  | x :: xs => x :: addToLast xs v

/-- The stream `[-initialInvestment, ...cashFlows]` with the terminal value
folded into the last element (LBOModel.js lines 178–179). -/
def irrCashFlows (initialInvestment : ℚ) (cashFlows : List ℚ)
    (terminalValue : ℚ) : List ℚ :=
  addToLast (-initialInvestment :: cashFlows) terminalValue

/-- `calculateIRR` (LBOModel.js lines 177–211). -/
def calculateIRR (initialInvestment : ℚ) (cashFlows : List ℚ)
    (terminalValue : ℚ) : Except String ℚ :=
  calculateIRRStream (irrCashFlows initialInvestment cashFlows terminalValue)

/-! ## calculateLBO (LBOModel.js lines 18–153) -/

/-- `results.sourceAndUses`, flattened to the derived aggregates. -/
structure SourcesAndUses where
  totalDebt : ℚ
  equityContribution : ℚ
  totalSources : ℚ
  totalUses : ℚ
deriving Repr, DecidableEq

/-- `results.returns` (LBOModel.js lines 117–126). -/
structure LBOReturns where
  entryEquity : ℚ
  exitEquityValue : ℚ
  totalCashDistributed : ℚ
  totalCashReturned : ℚ
  totalMultiple : ℚ
  irr : ℚ
deriving Repr, DecidableEq

/-- `results.creditMetrics` (LBOModel.js lines 132–138). -/
structure LBOCreditMetrics where
  entryDebtToEbitda : ℚ
  maxDebtToEbitda : ℚ
  minEbitdaToInterest : ℚ
  debtPaydownOverHoldPeriod : ℚ
  debtPaydownPercent : ℚ
deriving Repr, DecidableEq

/-- `results.keyMetrics` (LBOModel.js lines 141–146); the field name
`meetsTaxgetIRR` reproduces the source's spelling. -/
structure LBOKeyMetrics where
  meetsTaxgetIRR : Bool
  leverageWithinLimits : Bool
  adequateEquityBuffer : Bool
  riskAdjustedReturn : ℚ
deriving Repr, DecidableEq

structure LBOResult where
  sourceAndUses : SourcesAndUses
  projections : List YearProjection
  returns : LBOReturns
  creditMetrics : LBOCreditMetrics
  keyMetrics : LBOKeyMetrics
deriving Repr, DecidableEq

def zeroLBOResult : LBOResult :=
  ⟨⟨0, 0, 0, 0⟩, [], ⟨0, 0, 0, 0, 0, 0⟩, ⟨0, 0, 0, 0, 0⟩, ⟨false, false, false, 0⟩⟩

/-- `Math.max(...xs)` over a nonempty list (the lists below always are). -/
def maxList (l : List ℚ) : ℚ :=
  match l with
  | [] => 0
  | x :: xs => xs.foldl max x

/-- `Math.min(...xs)` over a nonempty list. -/
def minList (l : List ℚ) : ℚ :=
  match l with
  | [] => 0
  | x :: xs => xs.foldl min x

/-- Exit equity value (LBOModel.js lines 106–109): exit-year EBITDA times
the exit multiple, less the exit-year debt balance. -/
def lboExitEquityValue (p : LBOParams) (cfg : LBOConfig) : ℚ :=
  let exitRow := (lboProjections p cfg).getD cfg.holdPeriod zeroProjection
  exitRow.ebitda * p.exitMultiple - exitRow.debtBalance

/-- The cash-flow stream handed to the IRR solver (LBOModel.js line 115):
`[-equityContribution, cashToSponsor_1, …, cashToSponsor_N + exitEquity]`. -/
def lboCashFlowStream (p : LBOParams) (cfg : LBOConfig) : List ℚ :=
  irrCashFlows (lboEquityContribution p)
    (((lboProjections p cfg).drop 1).map YearProjection.cashToSponsor)
    (lboExitEquityValue p cfg)

def lboErrorHead : String := "LBO calculation failed: "

/-- `calculateLBO` (LBOModel.js lines 18–153).  The try/catch rethrows any
inner failure with the prefix "LBO calculation failed: "; for numeric inputs
the only throwing step is the IRR solver, every division being non-throwing
in JS. -/
def calculateLBO (p : LBOParams) (cfg : LBOConfig) : Except String LBOResult :=
  let totalDebt := lboTotalDebt p
  let equityContribution := lboEquityContribution p
  let projections := lboProjections p cfg
  let exitRow := projections.getD cfg.holdPeriod zeroProjection
  let exitEquityValue := lboExitEquityValue p cfg
  let totalCashDistributed := ((projections.drop 1).map YearProjection.cashToSponsor).sum
  let totalCashReturned := totalCashDistributed + exitEquityValue
  match calculateIRRStream (lboCashFlowStream p cfg) with
  | .error e => .error (lboErrorHead ++ e)
  | .ok irr =>
    let maxDebtToEbitda := maxList (projections.map fun row => row.creditMetrics.debtToEbitda)
    let minEbitdaToInterest :=
      minList (projections.map fun row => row.creditMetrics.ebitdaToInterest)
    .ok
      ⟨⟨totalDebt, equityContribution, totalDebt + equityContribution,
          p.enterpriseValue + p.fees⟩,
        projections,
        ⟨equityContribution, exitEquityValue, totalCashDistributed, totalCashReturned,
          totalCashReturned / equityContribution, irr⟩,
        ⟨totalDebt / p.ebitda, maxDebtToEbitda, minEbitdaToInterest,
          totalDebt - exitRow.debtBalance, (totalDebt - exitRow.debtBalance) / totalDebt⟩,
        ⟨if cfg.targetIRR ≤ irr then true else false,
          if maxDebtToEbitda ≤ cfg.maxDebtMultiple then true else false,
          if cfg.minEquityContribution ≤ equityContribution / p.enterpriseValue then true
            else false,
          irr / (maxDebtToEbitda / 6)⟩⟩

/-! ## Sensitivity grids and Monte Carlo batches -/

/-- A DCF configuration with the two rates of one grid cell substituted
(`this.discountRate = …; this.terminalGrowthRate = …` around each call,
DCFModel.js lines 105–122). -/
def withRates (cfg : DCFConfig) (discountRate terminalGrowthRate : ℚ) : DCFConfig :=
  ⟨discountRate, terminalGrowthRate, cfg.projectionYears, cfg.taxRate⟩

/-- One row of the DCF sensitivity output (DCFModel.js lines 113–118). -/
structure DCFSensitivityCell where
  discountRate : ℚ
  terminalGrowthRate : ℚ
  intrinsicValue : ℚ
  upside : ℚ
deriving Repr, DecidableEq

/-- The Cartesian grid in discountRate-major, terminalGrowthRate-minor
order (the two nested loops, DCFModel.js lines 103–104). -/
def sensitivityPairs (outer inner : List ℚ) : List (ℚ × ℚ) :=
  outer.flatMap fun a => inner.map fun b => (a, b)

/-- Sequential evaluation of a batch where a single failure aborts the whole
run — the first error propagates, as an uncaught JS throw does. -/
def exceptMapList {α β : Type} (f : α → Except String β) :
    List α → Except String (List β)
  | [] => .ok []
  | x :: xs =>
    match f x with
    | .error e => .error e
    | .ok y =>
      match exceptMapList f xs with
      | .error e => .error e
      | .ok ys => .ok (y :: ys)

/-- `sensitivityAnalysis` of the DCF engine (DCFModel.js lines 97–127): the
grid loop calls `calculateDCF` with NO try/catch around it, so a throwing
cell aborts the entire grid. -/
def dcfSensitivity (snap : FinancialSnapshot) (proj : Projections) (cfg : DCFConfig)
    (discountRates terminalGrowthRates : List ℚ) :
    Except String (List DCFSensitivityCell) :=
  exceptMapList
    (fun pr =>
      (calculateDCF snap proj (withRates cfg pr.1 pr.2)).map
        fun res => ⟨pr.1, pr.2, res.intrinsicValue, res.upside⟩)
    (sensitivityPairs discountRates terminalGrowthRates)

/-- One Monte-Carlo iteration's already-drawn inputs (DCFModel.js lines
139–151): the random projections built by `generateRandomProjections` —
which always produces all five arrays — and the clamped random
discount/terminal-growth rates of that iteration.  The random draws
themselves are modelled separately over ℝ below. -/
structure DCFDraw where
  proj : ProjectionLists
  discountRate : ℚ
  terminalGrowthRate : ℚ
deriving Repr, DecidableEq

/-- One retained Monte-Carlo sample (DCFModel.js lines 155–159). -/
structure DCFSample where
  intrinsicValue : ℚ
  upside : ℚ
  presentValue : ℚ
deriving Repr, DecidableEq

/-- The Monte-Carlo aggregate (DCFModel.js lines 174–194), keeping the
sample-level data the claims concern; the mean/median/percentile reduction
delegated to the simple-statistics library is outside the modelled core. -/
structure DCFMonteCarloResult where
  simulations : ℕ
  intrinsicValues : List ℚ
  upsides : List ℚ
  results : List DCFSample
deriving Repr, DecidableEq

/-- `monteCarloDCF` (DCFModel.js lines 136–195) over an explicit list of
per-iteration draws: each iteration evaluates `calculateDCF` inside
try/catch, a failed iteration is skipped, `simulations` is the number of
successful iterations, and only samples of successful iterations feed the
statistics (`intrinsicValues` keeps the positive ones, line 171; the NaN
filter on upsides, line 172, keeps everything in ℚ). -/
def monteCarloDCF (snap : FinancialSnapshot) (cfg : DCFConfig)
    (draws : List DCFDraw) : DCFMonteCarloResult :=
  let samples := draws.filterMap fun d =>
    (calculateDCF snap (toProjections d.proj)
        (withRates cfg d.discountRate d.terminalGrowthRate)).toOption.map
      fun res => (⟨res.intrinsicValue, res.upside, res.presentValue⟩ : DCFSample)
  ⟨samples.length,
    (samples.map DCFSample.intrinsicValue).filter fun v => 0 < v,
    samples.map DCFSample.upside,
    samples.take 100⟩

/-- Deal parameters with one sensitivity cell substituted: the exit multiple
and a flat revenue-growth sequence of length holdPeriod (LBOModel.js lines
227–231). -/
def lboSensParams (p : LBOParams) (cfg : LBOConfig) (exitMultiple growth : ℚ) :
    LBOParams :=
  ⟨p.enterpriseValue, p.ebitda, p.revolver, p.termLoanA, p.termLoanB,
    p.subordinatedDebt, exitMultiple, List.replicate cfg.holdPeriod growth,
    p.ebitdaMargin, p.capexAsPercentOfRevenue, p.workingCapitalChange, p.fees,
    p.baseRevenue, p.interestRates, p.taxRate, p.debtPaydownRate⟩

/-- One row of the LBO sensitivity output (LBOModel.js lines 235–241). -/
structure LBOSensitivityCell where
  exitMultiple : ℚ
  revenueGrowth : ℚ
  irr : ℚ
  totalMultiple : ℚ
  maxLeverage : ℚ
deriving Repr, DecidableEq

/-- `sensitivityAnalysis` of the LBO engine (LBOModel.js lines 219–249):
each cell runs inside try/catch, a failing cell is skipped and the grid
continues. -/
def lboSensitivity (p : LBOParams) (cfg : LBOConfig)
    (exitMultiples revenueGrowthRates : List ℚ) : List LBOSensitivityCell :=
  (sensitivityPairs exitMultiples revenueGrowthRates).filterMap fun pr =>
    (calculateLBO (lboSensParams p cfg pr.1 pr.2) cfg).toOption.map fun res =>
      ⟨pr.1, pr.2, res.returns.irr, res.returns.totalMultiple,
        res.creditMetrics.maxDebtToEbitda⟩

/-- One retained LBO Monte-Carlo sample (LBOModel.js lines 266–271). -/
structure LBOSample where
  irr : ℚ
  totalMultiple : ℚ
  maxLeverage : ℚ
  exitEquityValue : ℚ
deriving Repr, DecidableEq

/-- The LBO Monte-Carlo aggregate (LBOModel.js lines 282–305), keeping the
sample-level data; its statistics reduction is likewise library code. -/
structure LBOMonteCarloResult where
  simulations : ℕ
  irrs : List ℚ
  multiples : List ℚ
  leverages : List ℚ
  results : List LBOSample
deriving Repr, DecidableEq

/-- `monteCarioLBO` (LBOModel.js lines 258–306, keeping the source's
spelling) over the explicit list of randomised deal parameters that
`generateRandomLBOParams` produced: each iteration runs inside try/catch, a
failed iteration is skipped, and `simulations` counts the successes. -/
def monteCarioLBO (cfg : LBOConfig) (draws : List LBOParams) : LBOMonteCarloResult :=
  let samples := draws.filterMap fun q =>
    (calculateLBO q cfg).toOption.map fun res =>
      (⟨res.returns.irr, res.returns.totalMultiple, res.creditMetrics.maxDebtToEbitda,
        res.returns.exitEquityValue⟩ : LBOSample)
  ⟨samples.length, samples.map LBOSample.irr, samples.map LBOSample.totalMultiple,
    samples.map LBOSample.maxLeverage, samples.take 100⟩

/-! ## The Monte-Carlo random rate draws (DCFModel.js lines 143–151, 228–234)

Modelled over ℝ with the underlying uniform(0,1) draws as explicit inputs. -/

/-- `normalRandom` (DCFModel.js lines 228–234): the Box–Muller transform
`mean + sqrt(−2·ln u1)·cos(2π·u2)·std`. -/
noncomputable def normalRandom (mean std u1 u2 : ℝ) : ℝ :=
  mean + Real.sqrt (-2 * Real.log u1) * Real.cos (2 * Real.pi * u2) * std

/-- The discount-rate draw used by `monteCarloDCF` (DCFModel.js lines 144
and 150): `base + (u − 0.5) × 0.04`, clamped below at 5%. -/
noncomputable def mcRandomDiscountRate (base u : ℝ) : ℝ :=
  max (5/100) (base + (u - 1/2) * (4/100))

/-- The terminal-growth draw used by `monteCarloDCF` (DCFModel.js lines 145
and 151): `base + (u − 0.5) × 0.02`, clamped to [0%, 5%]. -/
noncomputable def mcRandomTerminalGrowth (base u : ℝ) : ℝ :=
  max 0 (min (5/100) (base + (u - 1/2) * (2/100)))

/-- Modelled from the spec for comparison (§4.1 Monte Carlo): the discount
rate drawn as base plus a Normal(0, 0.04) Box–Muller sample, clamped below
at 5%. -/
noncomputable def specDiscountRateDraw (base u1 u2 : ℝ) : ℝ :=
  max (5/100) (base + normalRandom 0 (4/100) u1 u2)

/-- Modelled from the spec for comparison (§4.1 Monte Carlo): the terminal
growth rate drawn as base plus a Normal(0, 0.02) Box–Muller sample, clamped
to [0%, 5%]. -/
noncomputable def specTerminalGrowthDraw (base u1 u2 : ℝ) : ℝ :=
  max 0 (min (5/100) (base + normalRandom 0 (2/100) u1 u2))

/-! ## Concrete evaluation inputs -/

/-- A company snapshot: revenue 1000, 100 shares, price 150 (the spec's §8
scenario shape). -/
def exSnapshot : FinancialSnapshot := ⟨1000, 100, 150⟩

/-- Well-formed flat assumptions over a 5-year horizon: growth 5%, margin
20%, depreciation 30, capex 40, ΔWC 5, all entries nonzero. -/
def exLists : ProjectionLists :=
  ⟨[1/20, 1/20, 1/20, 1/20, 1/20], [1/5, 1/5, 1/5, 1/5, 1/5],
    [30, 30, 30, 30, 30], [40, 40, 40, 40, 40], [5, 5, 5, 5, 5]⟩

/-- The default engine configuration: 10% discount, 2.5% terminal growth,
5 years, 25% tax. -/
def exCfg : DCFConfig := ⟨1/10, 1/40, 5, 1/4⟩

/-- The invalid rate pair of the spec's DCF-guard property: discountRate 2%,
terminalGrowthRate 3%. -/
def badRateCfg : DCFConfig := ⟨2/100, 3/100, 5, 1/4⟩

/-- Flat assumptions with zero growth: revenue stays 1000, EBITDA 200,
free cash flow 117.5 each year. -/
def flatLists : ProjectionLists :=
  ⟨[0, 0, 0, 0, 0], [1/5, 1/5, 1/5, 1/5, 1/5], [30, 30, 30, 30, 30],
    [40, 40, 40, 40, 40], []⟩

/-- Projections whose workingCapitalChange array is absent: indexing it
throws inside `calculateDCF`. -/
def brokenProjections : Projections :=
  ⟨some [0, 0, 0, 0, 0], some [1/5, 1/5, 1/5, 1/5, 1/5], some [30, 30, 30, 30, 30],
    some [40, 40, 40, 40, 40], none⟩

/-- The LBO engine configuration with a one-year hold (and the constructor's
other defaults: 20% target IRR, 6.0× leverage cap, 30% minimum equity). -/
def exLBOCfg : LBOConfig := ⟨1/5, 1, 6, 3/10⟩

/-- An all-equity deal (no debt tranches) with every EBITDA margin zero and
working-capital swings engineered so the sponsor cash-flow stream is
[-100, 115], on which Newton–Raphson converges at the first check (NPV at
the 0.15 starting guess is exactly zero). -/
def exLBOParams : LBOParams :=
  ⟨100, 50, 0, 0, 0, 0, 10, [0], [0, 0], [1/100, 1/100], [-10, -240],
    0, 1000, ⟨2/25, 0, 0, 0⟩, 1/4, 1/2⟩

/-- A degenerate all-zero deal: every projected cash flow is 0, so the IRR
stream is [-100, 0], whose NPV derivative at the starting guess is exactly
zero — the solver throws at once. -/
def zeroLBOParams : LBOParams :=
  ⟨100, 0, 0, 0, 0, 0, 10, [0], [], [], [], 0, 0,
    ⟨2/25, 0, 0, 0⟩, 1/4, 1/2⟩

/-- The LBO result of the engineered converging deal, extracted from the
call itself. -/
def exLBOResult : LBOResult :=
  ((calculateLBO exLBOParams exLBOCfg).toOption).getD zeroLBOResult

/-- The DCF result of the flat-assumption run at the invalid 2%/3% rate
pair, extracted from the call itself. -/
def badRateResult : DCFResult :=
  ((calculateDCF exSnapshot (toProjections flatLists) badRateCfg).toOption).getD
    zeroDCFResult

/-! ## Properties of the IRR solver -/

theorem irrGo_ok (cashFlows : List ℚ) :
    ∀ fuel rate r, irrGo cashFlows rate fuel = .ok r →
      absQ (npvAt cashFlows r) < irrTolerance := by
  intro fuel
  induction fuel with
  | zero => intro rate r h; simp [irrGo] at h
  | succ n ih =>
    intro rate r h
    simp only [irrGo] at h
    split at h
    · cases h; assumption
    · split at h
      · cases h
      · exact ih _ _ h

theorem irrGo_error (cashFlows : List ℚ) :
    ∀ fuel rate e, irrGo cashFlows rate fuel = .error e →
      e = derivErrorMsg ∨ e = maxIterErrorMsg := by
  intro fuel
  induction fuel with
  | zero =>
    intro rate e h
    simp only [irrGo, Except.error.injEq] at h
    exact Or.inr h.symm
  | succ n ih =>
    intro rate e h
    simp only [irrGo] at h
    split at h
    · cases h
    · split at h
      · cases h; exact Or.inl rfl
      · exact ih _ _ h

theorem irrGo_error_deriv (cashFlows : List ℚ) :
    ∀ fuel rate, irrGo cashFlows rate fuel = .error derivErrorMsg →
      ∃ k, k < fuel ∧
        irrTolerance ≤ absQ (npvAt cashFlows (newtonIter cashFlows rate k)) ∧
        absQ (npvDerivAt cashFlows (newtonIter cashFlows rate k)) < irrTolerance := by
  intro fuel
  induction fuel with
  | zero =>
    intro rate h
    simp only [irrGo, Except.error.injEq] at h
    exact absurd h.symm (by decide)
  | succ n ih =>
    intro rate h
    simp only [irrGo] at h
    split at h
    · cases h
    · rename_i h1
      split at h
      · rename_i h2
        exact ⟨0, Nat.succ_pos n, not_lt.mp h1, h2⟩
      · obtain ⟨k, hk, ha, hb⟩ := ih (newtonStep cashFlows rate) h
        exact ⟨k + 1, by omega, ha, hb⟩

/-- C4: `calculateIRR` either returns a rate at which the NPV of the
assembled cash-flow stream is within 1e-6 of zero, or fails — and a failure
carries exactly one of the two solver error messages: the near-zero
derivative (with a Newton iterate k < 1000 at which the stream's NPV
derivative is below 1e-6 while the NPV is not yet converged), or the
exhaustion of the 1000-iteration budget.  A non-converged rate is never
returned. -/
theorem calculateIRR_result_spec (initialInvestment : ℚ) (cashFlows : List ℚ)
    (terminalValue : ℚ) :
    (∀ r, calculateIRR initialInvestment cashFlows terminalValue = .ok r →
        absQ (npvAt (irrCashFlows initialInvestment cashFlows terminalValue) r) <
          irrTolerance) ∧
    (∀ e, calculateIRR initialInvestment cashFlows terminalValue = .error e →
        e = derivErrorMsg ∨ e = maxIterErrorMsg) ∧
    (calculateIRR initialInvestment cashFlows terminalValue = .error derivErrorMsg →
      ∃ k, k < 1000 ∧
        irrTolerance ≤
          absQ (npvAt (irrCashFlows initialInvestment cashFlows terminalValue)
            (newtonIter (irrCashFlows initialInvestment cashFlows terminalValue)
              (3/20) k)) ∧
        absQ (npvDerivAt (irrCashFlows initialInvestment cashFlows terminalValue)
            (newtonIter (irrCashFlows initialInvestment cashFlows terminalValue)
              (3/20) k)) < irrTolerance) :=
  ⟨fun r h => irrGo_ok _ _ _ _ h, fun e h => irrGo_error _ _ _ _ h,
    fun h => irrGo_error_deriv _ _ _ h⟩

theorem irrGo_step_ok (cashFlows : List ℚ) (rate : ℚ) (fuel : ℕ)
    (h : absQ (npvAt cashFlows rate) < irrTolerance) :
    irrGo cashFlows rate (fuel + 1) = .ok rate := by
  simp only [irrGo]
  rw [if_pos h]

theorem irrGo_step_deriv_error (cashFlows : List ℚ) (rate : ℚ) (fuel : ℕ)
    (h1 : ¬ absQ (npvAt cashFlows rate) < irrTolerance)
    (h2 : absQ (npvDerivAt cashFlows rate) < irrTolerance) :
    irrGo cashFlows rate (fuel + 1) = .error derivErrorMsg := by
  simp only [irrGo]
  rw [if_neg h1, if_pos h2]

/-- The IRR round-trip at a concrete converging stream: solving
[-100, 115, 0, 0, 0, 0] returns a rate whose NPV is below the tolerance. -/
theorem calculateIRR_result_spec_check :
    absQ (npvAt (irrCashFlows 100 [115, 0, 0, 0, 0] 0) (3/20)) < irrTolerance := by
  have hstream : irrCashFlows 100 [115, 0, 0, 0, 0] 0 = [-100, 115, 0, 0, 0, 0] := by
    norm_num [irrCashFlows, addToLast]
  have hconv : absQ (npvAt [-100, 115, 0, 0, 0, 0] (3/20)) < irrTolerance := by
    norm_num [npvAt, npvAux, absQ, irrTolerance]
  have hok : calculateIRR 100 [115, 0, 0, 0, 0] 0 = .ok (3/20) := by
    unfold calculateIRR calculateIRRStream
    rw [hstream]
    exact irrGo_step_ok _ _ 999 hconv
  exact (calculateIRR_result_spec 100 [115, 0, 0, 0, 0] 0).1 (3/20) hok

/-! ## Structural properties of the LBO projection loop -/

theorem lboProjectionsAux_length (p : LBOParams) :
    ∀ n year debt, (lboProjectionsAux p n year debt).length = n := by
  intro n
  induction n with
  | zero => intro year debt; rfl
  | succ m ih =>
    intro year debt
    simp only [lboProjectionsAux, List.length_cons, ih]

theorem lboYear_debtBalance_shape (p : LBOParams) (year : ℕ) (debt : ℚ) :
    ∃ paydown, 0 ≤ paydown ∧
      (lboYear p year debt).debtBalance = max 0 (debt - paydown) :=
  ⟨_, le_max_left 0 _, rfl⟩

theorem lboYear_revenue (p : LBOParams) (year : ℕ) (debt : ℚ) :
    (lboYear p year debt).revenue = lboRevenue p year := rfl

theorem lboProjectionsAux_debt (p : LBOParams) :
    ∀ n year debt,
      (∀ i, i < n →
        0 ≤ ((lboProjectionsAux p n year debt).getD i zeroProjection).debtBalance) ∧
      (∀ i, i + 1 < n →
        ((lboProjectionsAux p n year debt).getD (i + 1) zeroProjection).debtBalance ≤
          ((lboProjectionsAux p n year debt).getD i zeroProjection).debtBalance) ∧
      (0 < n →
        ((lboProjectionsAux p n year debt).getD 0 zeroProjection).debtBalance ≤
          max 0 debt) := by
  intro n
  induction n with
  | zero =>
    intro year debt
    exact ⟨fun i hi => absurd hi (by omega), fun i hi => absurd hi (by omega),
      fun h => absurd h (by omega)⟩
  | succ m ih =>
    intro year debt
    obtain ⟨pd, hpd, hdb⟩ := lboYear_debtBalance_shape p year debt
    have hrow0 : 0 ≤ (lboYear p year debt).debtBalance := by
      rw [hdb]; exact le_max_left 0 _
    have hcons : lboProjectionsAux p (m + 1) year debt =
        lboYear p year debt ::
          lboProjectionsAux p m (year + 1) (lboYear p year debt).debtBalance := rfl
    refine ⟨?_, ?_, ?_⟩
    · intro i hi
      rw [hcons]
      cases i with
      | zero => simpa using hrow0
      | succ j =>
        simp only [List.getD_cons_succ]
        exact (ih (year + 1) (lboYear p year debt).debtBalance).1 j (by omega)
    · intro i hi
      rw [hcons]
      cases i with
      | zero =>
        simp only [List.getD_cons_succ, List.getD_cons_zero]
        have := (ih (year + 1) (lboYear p year debt).debtBalance).2.2 (by omega)
        rwa [max_eq_right hrow0] at this
      | succ j =>
        simp only [List.getD_cons_succ]
        exact (ih (year + 1) (lboYear p year debt).debtBalance).2.1 j (by omega)
    · intro _
      rw [hcons]
      simp only [List.getD_cons_zero]
      rw [hdb]
      exact max_le_max le_rfl (by linarith)

theorem lboProjectionsAux_revenue (p : LBOParams) :
    ∀ n year debt i, i < n →
      ((lboProjectionsAux p n year debt).getD i zeroProjection).revenue =
        lboRevenue p (year + i) := by
  intro n
  induction n with
  | zero => intro year debt i hi; exact absurd hi (by omega)
  | succ m ih =>
    intro year debt i hi
    cases i with
    | zero =>
      show (lboYear p year debt).revenue = lboRevenue p (year + 0)
      rw [lboYear_revenue, Nat.add_zero]
    | succ j =>
      show ((lboProjectionsAux p m (year + 1) _).getD j zeroProjection).revenue = _
      rw [ih (year + 1) _ j (by omega)]
      congr 1
      omega

/-- Extraction: a successful `calculateLBO` returns exactly the projection
table the loop built. -/
theorem calculateLBO_ok_projections (p : LBOParams) (cfg : LBOConfig)
    (res : LBOResult) (h : calculateLBO p cfg = .ok res) :
    res.projections = lboProjections p cfg := by
  unfold calculateLBO at h
  split at h
  · cases h
  · cases h; rfl

/-- A successful `calculateLBO` is exactly a successful IRR solve on the
sponsor cash-flow stream. -/
theorem calculateLBO_isOk_eq (p : LBOParams) (cfg : LBOConfig) :
    (calculateLBO p cfg).toOption.isSome =
      (calculateIRRStream (lboCashFlowStream p cfg)).toOption.isSome := by
  unfold calculateLBO
  cases h : calculateIRRStream (lboCashFlowStream p cfg) <;> simp [h, Except.toOption]

/-- An IRR failure propagates as the wrapped LBO failure message. -/
theorem calculateLBO_error_of_irr (p : LBOParams) (cfg : LBOConfig) (e : String)
    (h : calculateIRRStream (lboCashFlowStream p cfg) = .error e) :
    calculateLBO p cfg = .error (lboErrorHead ++ e) := by
  unfold calculateLBO
  rw [h]

theorem except_eq_ok_getD {α : Type} (e : Except String α) (d : α)
    (h : e.toOption.isSome) : e = .ok (e.toOption.getD d) := by
  cases e with
  | ok x => rfl
  | error m => simp [Except.toOption] at h

/-- A successful IRR solve makes `calculateLBO` return, carrying that rate in
`returns.irr` and the loop's projection table. -/
theorem calculateLBO_ok_result (p : LBOParams) (cfg : LBOConfig) (r : ℚ)
    (h : calculateIRRStream (lboCashFlowStream p cfg) = .ok r) :
    ∃ res, calculateLBO p cfg = .ok res ∧ res.returns.irr = r ∧
      res.projections = lboProjections p cfg := by
  unfold calculateLBO
  rw [h]
  exact ⟨_, rfl, rfl, rfl⟩

/-! ## Concrete LBO runs -/

theorem exLBO_stream : lboCashFlowStream exLBOParams exLBOCfg = [-100, 115] := by
  norm_num [lboCashFlowStream, lboProjections, lboProjectionsAux, lboYear, lboRevenue,
    lboBaseRevenue, lboTotalDebt, lboEquityContribution, lboExitEquityValue,
    calculateInterestExpense, jsOr, exLBOParams, exLBOCfg, irrCashFlows, addToLast,
    zeroProjection]

theorem exLBO_irr : calculateIRRStream (lboCashFlowStream exLBOParams exLBOCfg) =
    .ok (3/20) := by
  rw [exLBO_stream]
  have hconv : absQ (npvAt [-100, 115] (3/20)) < irrTolerance := by
    norm_num [npvAt, npvAux, absQ, irrTolerance]
  exact irrGo_step_ok _ _ 999 hconv

theorem exLBO_ok : calculateLBO exLBOParams exLBOCfg = .ok exLBOResult := by
  apply except_eq_ok_getD
  rw [calculateLBO_isOk_eq, exLBO_irr]
  rfl

theorem zeroLBO_irr_error :
    calculateIRRStream (lboCashFlowStream zeroLBOParams exLBOCfg) =
      .error derivErrorMsg := by
  have hstream : lboCashFlowStream zeroLBOParams exLBOCfg = [-100, 0] := by
    norm_num [lboCashFlowStream, lboProjections, lboProjectionsAux, lboYear, lboRevenue,
      lboBaseRevenue, lboTotalDebt, lboEquityContribution, lboExitEquityValue,
      calculateInterestExpense, jsOr, zeroLBOParams, exLBOCfg, irrCashFlows, addToLast,
      zeroProjection]
  rw [hstream]
  have h1 : ¬ absQ (npvAt [-100, 0] (3/20)) < irrTolerance := by
    norm_num [npvAt, npvAux, absQ, irrTolerance]
  have h2 : absQ (npvDerivAt [-100, 0] (3/20)) < irrTolerance := by
    norm_num [npvDerivAt, npvDerivAux, absQ, irrTolerance]
  exact irrGo_step_deriv_error _ _ 999 h1 h2

/-! ## Claims about the LBO engine -/

/-- C3: in every successful `calculateLBO` run, the recorded `debtBalance`
sequence is non-negative in every year and monotonically non-increasing from
each year to the next, for all deal parameters — the per-year update is
`max(0, debt − max(0, fcf × paydownRate))`, so even negative free cash flows
only leave the balance unchanged. -/
theorem lbo_debt_monotone_nonneg (p : LBOParams) (cfg : LBOConfig)
    (res : LBOResult) (h : calculateLBO p cfg = .ok res) :
    (∀ y, y < res.projections.length →
        0 ≤ (res.projections.getD y zeroProjection).debtBalance) ∧
    (∀ y, 1 ≤ y → y < res.projections.length →
        (res.projections.getD y zeroProjection).debtBalance ≤
          (res.projections.getD (y - 1) zeroProjection).debtBalance) := by
  rw [calculateLBO_ok_projections p cfg res h]
  unfold lboProjections
  have hlen := lboProjectionsAux_length p (cfg.holdPeriod + 1) 0 (lboTotalDebt p)
  have H := lboProjectionsAux_debt p (cfg.holdPeriod + 1) 0 (lboTotalDebt p)
  constructor
  · intro y hy
    exact H.1 y (by omega)
  · intro y hy1 hy2
    obtain ⟨i, rfl⟩ : ∃ i, y = i + 1 := ⟨y - 1, by omega⟩
    have := H.2.1 i (by omega)
    simpa using this

/-- Concrete check of C3 on the engineered converging deal. -/
theorem lbo_debt_monotone_nonneg_check :
    0 ≤ (exLBOResult.projections.getD 0 zeroProjection).debtBalance ∧
    (exLBOResult.projections.getD 1 zeroProjection).debtBalance ≤
      (exLBOResult.projections.getD 0 zeroProjection).debtBalance := by
  have h := lbo_debt_monotone_nonneg exLBOParams exLBOCfg exLBOResult exLBO_ok
  have hlen : exLBOResult.projections.length = 2 := by
    rw [calculateLBO_ok_projections exLBOParams exLBOCfg exLBOResult exLBO_ok]
    rw [lboProjections, lboProjectionsAux_length]
    rfl
  exact ⟨h.1 0 (by omega), h.2 1 (by omega) (by omega)⟩

/-- C5 counterexample: an input whose year-1 EBITDA is exactly zero on which
`calculateLBO` nevertheless RETURNS a result (with a solved IRR of 15%)
instead of raising an error — there is no division guard. -/
theorem lbo_zero_ebitda_no_error :
    ((calculateLBO exLBOParams exLBOCfg).toOption.map fun res =>
        ((res.projections.getD 1 zeroProjection).ebitda, res.returns.irr)) =
      some (0, 3/20) := by
  obtain ⟨res, hres, hirr, hproj⟩ :=
    calculateLBO_ok_result exLBOParams exLBOCfg (3/20) exLBO_irr
  rw [hres]
  show some ((res.projections.getD 1 zeroProjection).ebitda, res.returns.irr) =
    some (0, 3/20)
  rw [hproj, hirr]
  norm_num [lboProjections, lboProjectionsAux, lboYear, lboRevenue, lboBaseRevenue,
    lboTotalDebt, calculateInterestExpense, jsOr, exLBOParams, exLBOCfg, zeroProjection]

/-- C5 (amended): `calculateLBO` fails exactly when the Root Finder fails,
propagating its message behind the "LBO calculation failed: " prefix; a zero
`ebitda_y` (or any other zero denominator) raises nothing — the unguarded
ratio is carried in the returned credit metrics (Infinity/NaN in JS). -/
theorem lbo_error_exactly_irr_failure (p : LBOParams) (cfg : LBOConfig) :
    ((calculateLBO p cfg).toOption.isSome =
        (calculateIRRStream (lboCashFlowStream p cfg)).toOption.isSome) ∧
    (∀ e, calculateIRRStream (lboCashFlowStream p cfg) = .error e →
        calculateLBO p cfg = .error (lboErrorHead ++ e)) :=
  ⟨calculateLBO_isOk_eq p cfg, fun e he => calculateLBO_error_of_irr p cfg e he⟩

/-- Concrete check: the degenerate all-zero deal makes the solver fail on a
flat derivative and `calculateLBO` surfaces exactly that failure. -/
theorem lbo_error_exactly_irr_failure_check :
    calculateLBO zeroLBOParams exLBOCfg =
      .error (lboErrorHead ++ derivErrorMsg) :=
  (lbo_error_exactly_irr_failure zeroLBOParams exLBOCfg).2 derivErrorMsg
    zeroLBO_irr_error

/-- C6: in every successful `calculateLBO` run, the year-y revenue is the
unchanged baseline revenue times `(1 + growth[y−1]) ^ y` — one growth rate
compounded `y` times against the constant baseline, not chained onto the
prior year's revenue. -/
theorem lbo_revenue_baseline_compounding (p : LBOParams) (cfg : LBOConfig)
    (res : LBOResult) (h : calculateLBO p cfg = .ok res) (y : ℕ)
    (hy1 : 1 ≤ y) (hy2 : y ≤ cfg.holdPeriod)
    (hlen : y - 1 < p.revenueGrowth.length) :
    (res.projections.getD y zeroProjection).revenue =
      lboBaseRevenue p * (1 + p.revenueGrowth.getD (y - 1) 0) ^ y := by
  rw [calculateLBO_ok_projections p cfg res h]
  unfold lboProjections
  rw [lboProjectionsAux_revenue p (cfg.holdPeriod + 1) 0 (lboTotalDebt p) y (by omega)]
  rw [Nat.zero_add, lboRevenue, if_neg (by omega)]

/-- Concrete check of C6 at year 1 of the engineered deal: revenue is the
baseline times `(1 + growth[0])`. -/
theorem lbo_revenue_baseline_compounding_check :
    (exLBOResult.projections.getD 1 zeroProjection).revenue =
      lboBaseRevenue exLBOParams * (1 + exLBOParams.revenueGrowth.getD 0 0) ^ 1 :=
  lbo_revenue_baseline_compounding exLBOParams exLBOCfg exLBOResult exLBO_ok 1
    (by omega) (by norm_num [exLBOCfg]) (by norm_num [exLBOParams])

/-! ## Structural properties of the DCF projection loop -/

/-- The closed form of the revenue carried through the DCF loop: year 0 is
the snapshot revenue, each later year multiplies by `(1 + growth[y−1] || 0)`. -/
def dcfRevenue (rev0 : ℚ) (growth : List ℚ) : ℕ → ℚ
  | 0 => rev0
  | y + 1 => dcfRevenue rev0 growth y * (1 + getOr growth y 0)

theorem dcfRecords_length (p : ProjectionLists) (t r : ℚ) :
    ∀ n year rev, (dcfRecords p t r n year rev).length = n := by
  intro n
  induction n with
  | zero => intro year rev; rfl
  | succ m ih =>
    intro year rev
    simp only [dcfRecords, List.length_cons, ih]

theorem dcfYear_revenue_step (p : ProjectionLists) (t r rev0 : ℚ) (j : ℕ) :
    (dcfYear p t r (j + 1) (dcfRevenue rev0 p.revenueGrowth j)).revenue =
      dcfRevenue rev0 p.revenueGrowth (j + 1) := rfl

theorem dcfRecords_getD (p : ProjectionLists) (t r rev0 : ℚ) :
    ∀ n j i, i < n →
      (dcfRecords p t r n (j + 1) (dcfRevenue rev0 p.revenueGrowth j)).getD i
          zeroRecord =
        dcfYear p t r (j + 1 + i) (dcfRevenue rev0 p.revenueGrowth (j + i)) := by
  intro n
  induction n with
  | zero => intro j i hi; exact absurd hi (by omega)
  | succ m ih =>
    intro j i hi
    cases i with
    | zero =>
      show dcfYear p t r (j + 1) (dcfRevenue rev0 p.revenueGrowth j) =
        dcfYear p t r (j + 1 + 0) (dcfRevenue rev0 p.revenueGrowth (j + 0))
      simp only [Nat.add_zero]
    | succ k =>
      show (dcfRecords p t r m (j + 1 + 1)
          (dcfYear p t r (j + 1) (dcfRevenue rev0 p.revenueGrowth j)).revenue).getD k
          zeroRecord = _
      rw [dcfYear_revenue_step]
      rw [ih (j + 1) k (by omega)]
      have e1 : j + 1 + 1 + k = j + 1 + (k + 1) := by omega
      have e2 : j + 1 + k = j + (k + 1) := by omega
      rw [e1, e2]

theorem dcfRecords_getD_zero (p : ProjectionLists) (t r rev0 : ℚ) (n i : ℕ)
    (hi : i < n) :
    (dcfRecords p t r n 1 rev0).getD i zeroRecord =
      dcfYear p t r (i + 1) (dcfRevenue rev0 p.revenueGrowth i) := by
  have hgd := dcfRecords_getD p t r rev0 n 0 i hi
  have e2 : (0:ℕ) + 1 + i = i + 1 := by omega
  have e3 : (0:ℕ) + i = i := by omega
  rw [e2, e3] at hgd
  have e1 : (0:ℕ) + 1 = 1 := rfl
  rw [e1] at hgd
  have e4 : dcfRevenue rev0 p.revenueGrowth 0 = rev0 := rfl
  rw [e4] at hgd
  exact hgd

/-- Field equations of one loop iteration, phrased through the record's own
fields. -/
theorem dcfYear_fields (p : ProjectionLists) (t r : ℚ) (year : ℕ) (lastRev : ℚ) :
    (dcfYear p t r year lastRev).revenue =
        lastRev * (1 + getOr p.revenueGrowth (year - 1) 0) ∧
    (dcfYear p t r year lastRev).ebitda =
        (dcfYear p t r year lastRev).revenue *
          getOr p.ebitdaMargin (year - 1) (15/100) ∧
    (dcfYear p t r year lastRev).ebit =
        (dcfYear p t r year lastRev).ebitda -
          getOr p.depreciation (year - 1)
            ((dcfYear p t r year lastRev).revenue * (3/100)) ∧
    (dcfYear p t r year lastRev).nopat =
        (dcfYear p t r year lastRev).ebit -
          (dcfYear p t r year lastRev).ebit * t ∧
    (dcfYear p t r year lastRev).freeCashFlow =
        (dcfYear p t r year lastRev).nopat +
          getOr p.depreciation (year - 1)
            ((dcfYear p t r year lastRev).revenue * (3/100)) -
          getOr p.capex (year - 1)
            ((dcfYear p t r year lastRev).revenue * (4/100)) -
          getOr p.workingCapitalChange (year - 1) 0 ∧
    (dcfYear p t r year lastRev).presentValue =
        (dcfYear p t r year lastRev).freeCashFlow / (1 + r) ^ year :=
  ⟨rfl, rfl, rfl, rfl, rfl, rfl⟩

/-- Extraction: a successful `calculateDCF` on present sequences is the core
run, and the horizon is nonzero. -/
theorem calculateDCF_ok_core (snap : FinancialSnapshot) (g m d c w : List ℚ)
    (cfg : DCFConfig) (res : DCFResult)
    (h : calculateDCF snap ⟨some g, some m, some d, some c, some w⟩ cfg = .ok res) :
    res = calculateDCFCore snap ⟨g, m, d, c, w⟩ cfg ∧ 0 < cfg.projectionYears := by
  unfold calculateDCF at h
  split at h
  · cases h
  · rename_i hN
    exact ⟨(Except.ok.inj h).symm, by omega⟩

theorem calculateDCFCore_projections (snap : FinancialSnapshot)
    (p : ProjectionLists) (cfg : DCFConfig) :
    (calculateDCFCore snap p cfg).projectedCashFlows =
      dcfRecords p cfg.taxRate cfg.discountRate cfg.projectionYears 1 snap.revenue :=
  rfl

theorem calculateDCFCore_terminal (snap : FinancialSnapshot)
    (p : ProjectionLists) (cfg : DCFConfig) :
    (calculateDCFCore snap p cfg).terminalValue =
      terminalValueFormula
        (((calculateDCFCore snap p cfg).projectedCashFlows.getD
            (cfg.projectionYears - 1) zeroRecord).freeCashFlow)
        cfg.terminalGrowthRate cfg.discountRate :=
  rfl

theorem calculateDCFCore_presentValue (snap : FinancialSnapshot)
    (p : ProjectionLists) (cfg : DCFConfig) :
    (calculateDCFCore snap p cfg).presentValue =
      ((calculateDCFCore snap p cfg).projectedCashFlows.map
          YearRecord.presentValue).sum +
        (calculateDCFCore snap p cfg).terminalValue /
          (1 + cfg.discountRate) ^ cfg.projectionYears :=
  rfl

theorem calculateDCFCore_intrinsic (snap : FinancialSnapshot)
    (p : ProjectionLists) (cfg : DCFConfig) :
    (calculateDCFCore snap p cfg).intrinsicValue =
      if 0 < snap.sharesOutstanding then
        (calculateDCFCore snap p cfg).presentValue / snap.sharesOutstanding
      else 0 :=
  rfl

theorem calculateDCFCore_upside (snap : FinancialSnapshot)
    (p : ProjectionLists) (cfg : DCFConfig) :
    (calculateDCFCore snap p cfg).upside =
      if 0 < snap.sharesOutstanding ∧ 0 < snap.currentPrice then
        ((calculateDCFCore snap p cfg).intrinsicValue - snap.currentPrice) /
          snap.currentPrice
      else 0 :=
  rfl

theorem calculateDCF_toProjections_isSome (snap : FinancialSnapshot)
    (p : ProjectionLists) (cfg : DCFConfig) (hN : 0 < cfg.projectionYears) :
    (calculateDCF snap (toProjections p) cfg).toOption.isSome = true := by
  unfold calculateDCF toProjections
  rw [if_neg (by omega)]
  rfl

/-! ## Claims about the DCF engine -/

/-- C1 (code-bug evidence): at discountRate 2% ≤ terminalGrowthRate 3% — the
spec's DCF-guard failing input — `calculateDCF` raises no
InvalidAssumptionError; it returns a result whose terminal value was computed
with the negative denominator, −12102.5. -/
theorem dcf_invalid_rates_return_silently :
    (calculateDCF exSnapshot (toProjections flatLists) badRateCfg).toOption.map
        DCFResult.terminalValue = some (-24205/2) ∧ ((-24205 : ℚ)/2) < 0 := by
  constructor
  · norm_num [calculateDCF, calculateDCFCore, dcfRecords, dcfYear, flatLists,
      exSnapshot, badRateCfg, toProjections, getOr, terminalValueFormula, zeroRecord,
      Except.toOption]
  · norm_num

theorem calculateDCFCore_guards (snap : FinancialSnapshot) (p : ProjectionLists)
    (cfg : DCFConfig) :
    (snap.sharesOutstanding ≤ 0 → (calculateDCFCore snap p cfg).intrinsicValue = 0 ∧
      (calculateDCFCore snap p cfg).upside = 0) ∧
    (0 < snap.sharesOutstanding →
      (calculateDCFCore snap p cfg).intrinsicValue =
        (calculateDCFCore snap p cfg).presentValue / snap.sharesOutstanding ∧
      (snap.currentPrice ≤ 0 → (calculateDCFCore snap p cfg).upside = 0) ∧
      (0 < snap.currentPrice →
        (calculateDCFCore snap p cfg).upside =
          ((calculateDCFCore snap p cfg).intrinsicValue - snap.currentPrice) /
            snap.currentPrice)) := by
  constructor
  · intro hs
    have h1 : ¬ 0 < snap.sharesOutstanding := not_lt.mpr hs
    refine ⟨?_, ?_⟩
    · rw [calculateDCFCore_intrinsic, if_neg h1]
    · rw [calculateDCFCore_upside, if_neg (fun hc => h1 hc.1)]
  · intro hs
    refine ⟨?_, ?_, ?_⟩
    · rw [calculateDCFCore_intrinsic, if_pos hs]
    · intro hp
      rw [calculateDCFCore_upside, if_neg (fun hc => (not_lt.mpr hp) hc.2)]
    · intro hp
      rw [calculateDCFCore_upside, if_pos ⟨hs, hp⟩]

/-- C10: `calculateDCF` always returns `intrinsicValue` and `upside` as
present numeric fields: with sharesOutstanding ≤ 0 both stay 0 (the upside
guard being nested inside the shares guard, upside stays 0 even at a
positive price), and with positive shares but currentPrice ≤ 0 upside is 0
while intrinsicValue is the per-share present value. -/
theorem dcf_share_price_guards (snap : FinancialSnapshot) (proj : Projections)
    (cfg : DCFConfig) (res : DCFResult) (h : calculateDCF snap proj cfg = .ok res) :
    (snap.sharesOutstanding ≤ 0 → res.intrinsicValue = 0 ∧ res.upside = 0) ∧
    (0 < snap.sharesOutstanding →
      res.intrinsicValue = res.presentValue / snap.sharesOutstanding ∧
      (snap.currentPrice ≤ 0 → res.upside = 0) ∧
      (0 < snap.currentPrice →
        res.upside = (res.intrinsicValue - snap.currentPrice) / snap.currentPrice)) := by
  obtain ⟨og, om, od, oc, ow⟩ := proj
  unfold calculateDCF at h
  split at h
  · cases h
  · cases og <;> cases om <;> cases od <;> cases oc <;> cases ow <;>
      first
        | (replace h := (Except.ok.inj h).symm
           subst h
           exact calculateDCFCore_guards snap _ cfg)
        | cases h

/-- A snapshot with zero shares outstanding but a positive price, used to
check the guard nesting concretely. -/
def noShareSnapshot : FinancialSnapshot := ⟨1000, 0, 150⟩

def noShareResult : DCFResult :=
  ((calculateDCF noShareSnapshot (toProjections exLists) exCfg).toOption).getD
    zeroDCFResult

/-- Concrete check of C10: zero shares with price 150 yields intrinsicValue
and upside both 0. -/
theorem dcf_share_price_guards_check :
    noShareResult.intrinsicValue = 0 ∧ noShareResult.upside = 0 := by
  have hok : calculateDCF noShareSnapshot (toProjections exLists) exCfg =
      .ok noShareResult :=
    except_eq_ok_getD _ _
      (calculateDCF_toProjections_isSome noShareSnapshot exLists exCfg
        (by norm_num [exCfg]))
  exact (dcf_share_price_guards noShareSnapshot (toProjections exLists) exCfg
    noShareResult hok).1 (by norm_num [noShareSnapshot])

/-- C2: every successful `calculateDCF` run on positive revenue, a horizon of
at least one year and per-year assumptions whose margin/depreciation/capex
entries are nonzero (so that no `||`-default replaces them) satisfies the
reference recurrences year by year, the Gordon terminal-value formula on the
final year's free cash flow, and the present-value sum; the terminal-value
formula itself gives 1366.67 ± 0.01 at the spec's concrete point. -/
theorem dcf_recurrences (snap : FinancialSnapshot) (g m d c w : List ℚ)
    (cfg : DCFConfig) (res : DCFResult)
    (h : calculateDCF snap ⟨some g, some m, some d, some c, some w⟩ cfg = .ok res)
    (hrev : 0 < snap.revenue) (hN : 1 ≤ cfg.projectionYears)
    (hm : ∀ i, i < cfg.projectionYears → m.getD i 0 ≠ 0)
    (hd : ∀ i, i < cfg.projectionYears → d.getD i 0 ≠ 0)
    (hc : ∀ i, i < cfg.projectionYears → c.getD i 0 ≠ 0) :
    (∀ y, 1 ≤ y → y ≤ cfg.projectionYears →
      (res.projectedCashFlows.getD (y - 1) zeroRecord).revenue =
          (if y = 1 then snap.revenue
            else (res.projectedCashFlows.getD (y - 2) zeroRecord).revenue) *
            (1 + g.getD (y - 1) 0) ∧
      (res.projectedCashFlows.getD (y - 1) zeroRecord).ebitda =
          (res.projectedCashFlows.getD (y - 1) zeroRecord).revenue *
            m.getD (y - 1) 0 ∧
      (res.projectedCashFlows.getD (y - 1) zeroRecord).ebit =
          (res.projectedCashFlows.getD (y - 1) zeroRecord).ebitda -
            d.getD (y - 1) 0 ∧
      (res.projectedCashFlows.getD (y - 1) zeroRecord).nopat =
          (res.projectedCashFlows.getD (y - 1) zeroRecord).ebit *
            (1 - cfg.taxRate) ∧
      (res.projectedCashFlows.getD (y - 1) zeroRecord).freeCashFlow =
          (res.projectedCashFlows.getD (y - 1) zeroRecord).nopat +
            d.getD (y - 1) 0 - c.getD (y - 1) 0 - w.getD (y - 1) 0 ∧
      (res.projectedCashFlows.getD (y - 1) zeroRecord).presentValue =
          (res.projectedCashFlows.getD (y - 1) zeroRecord).freeCashFlow /
            (1 + cfg.discountRate) ^ y) ∧
    res.terminalValue =
      terminalValueFormula
        ((res.projectedCashFlows.getD (cfg.projectionYears - 1)
            zeroRecord).freeCashFlow)
        cfg.terminalGrowthRate cfg.discountRate ∧
    res.presentValue =
      (res.projectedCashFlows.map YearRecord.presentValue).sum +
        res.terminalValue / (1 + cfg.discountRate) ^ cfg.projectionYears ∧
    absQ (terminalValueFormula 100 (1/40) (1/10) - 136667/100) ≤ 1/100 := by
  obtain ⟨hres, hN0⟩ := calculateDCF_ok_core snap g m d c w cfg res h
  subst hres
  refine ⟨?_, calculateDCFCore_terminal snap _ cfg,
    calculateDCFCore_presentValue snap _ cfg,
    by norm_num [terminalValueFormula, absQ]⟩
  intro y hy1 hy2
  obtain ⟨k, rfl⟩ : ∃ k, y = k + 1 := ⟨y - 1, by omega⟩
  have hk : k < cfg.projectionYears := by omega
  have hrec : ∀ i, i < cfg.projectionYears →
      (calculateDCFCore snap ⟨g, m, d, c, w⟩ cfg).projectedCashFlows.getD i
          zeroRecord =
        dcfYear ⟨g, m, d, c, w⟩ cfg.taxRate cfg.discountRate (i + 1)
          (dcfRevenue snap.revenue
            (⟨g, m, d, c, w⟩ : ProjectionLists).revenueGrowth i) := by
    intro i hi
    rw [calculateDCFCore_projections]
    exact dcfRecords_getD_zero _ _ _ _ _ i hi
  obtain ⟨f1, f2, f3, f4, f5, f6⟩ := dcfYear_fields
    (⟨g, m, d, c, w⟩ : ProjectionLists) cfg.taxRate cfg.discountRate (k + 1)
    (dcfRevenue snap.revenue (⟨g, m, d, c, w⟩ : ProjectionLists).revenueGrowth k)
  have hka : k + 1 - 1 = k := by omega
  have hgetm : getOr (⟨g, m, d, c, w⟩ : ProjectionLists).ebitdaMargin k (15/100) =
      m.getD k 0 :=
    getOr_eq_getD_of_ne_zero m k _ (hm k hk)
  have hgetd : ∀ v : ℚ,
      getOr (⟨g, m, d, c, w⟩ : ProjectionLists).depreciation k v = d.getD k 0 :=
    fun v => getOr_eq_getD_of_ne_zero d k v (hd k hk)
  have hgetc : ∀ v : ℚ,
      getOr (⟨g, m, d, c, w⟩ : ProjectionLists).capex k v = c.getD k 0 :=
    fun v => getOr_eq_getD_of_ne_zero c k v (hc k hk)
  have hgetw : getOr (⟨g, m, d, c, w⟩ : ProjectionLists).workingCapitalChange k 0 =
      w.getD k 0 :=
    getOr_zero_eq_getD w k
  have hgetg : getOr (⟨g, m, d, c, w⟩ : ProjectionLists).revenueGrowth k 0 =
      g.getD k 0 :=
    getOr_zero_eq_getD g k
  simp only [hka] at f1 f2 f3 f4 f5 f6 ⊢
  rw [hrec k hk]
  refine ⟨?_, ?_, ?_, ?_, ?_, ?_⟩
  · rw [f1, hgetg]
    congr 1
    cases k with
    | zero => rw [if_pos rfl]; rfl
    | succ j =>
      rw [if_neg (by omega)]
      rw [show j + 1 + 1 - 2 = j from by omega]
      rw [hrec j (by omega)]
      exact (dcfYear_revenue_step (⟨g, m, d, c, w⟩ : ProjectionLists)
        cfg.taxRate cfg.discountRate snap.revenue j).symm
  · rw [f2, hgetm]
  · rw [f3, hgetd]
  · rw [f4]; ring
  · rw [f5, hgetd, hgetc, hgetw]
  · exact f6

/-- The DCF result of the flat 5-year example, extracted from the call
itself. -/
def exDCFResult : DCFResult :=
  ((calculateDCF exSnapshot (toProjections exLists) exCfg).toOption).getD
    zeroDCFResult

/-- Concrete check of C2's terminal-value point: 100 × 1.025 / 0.075 is
within 0.01 of 1366.67. -/
theorem dcf_recurrences_check :
    absQ (terminalValueFormula 100 (1/40) (1/10) - 136667/100) ≤ 1/100 := by
  have hok : calculateDCF exSnapshot (toProjections exLists) exCfg =
      .ok exDCFResult :=
    except_eq_ok_getD _ _
      (calculateDCF_toProjections_isSome exSnapshot exLists exCfg
        (by norm_num [exCfg]))
  exact (dcf_recurrences exSnapshot exLists.revenueGrowth exLists.ebitdaMargin
    exLists.depreciation exLists.capex exLists.workingCapitalChange exCfg
    exDCFResult hok (by norm_num [exSnapshot]) (by norm_num [exCfg])
    (by intro i hi; norm_num [exCfg] at hi; interval_cases i <;> norm_num [exLists])
    (by intro i hi; norm_num [exCfg] at hi; interval_cases i <;> norm_num [exLists])
    (by intro i hi; norm_num [exCfg] at hi; interval_cases i <;>
      norm_num [exLists])).2.2.2

/-! ## Zero-entry defaulting (C9) -/

theorem getOr_congr_of_getElem (l1 l2 : List ℚ) (i : ℕ) (d : ℚ)
    (h : l1[i]? = l2[i]?) : getOr l1 i d = getOr l2 i d := by
  unfold getOr
  rw [h]

theorem getOr_set_self_zero (l : List ℚ) (i : ℕ) (d : ℚ) (hi : i < l.length) :
    getOr (l.set i 0) i d = d := by
  unfold getOr
  rw [List.getElem?_set_eq_of_lt 0 hi]
  simp

theorem getOr_set_value_eq_default (l : List ℚ) (i : ℕ) (d : ℚ)
    (hi : i < l.length) : getOr (l.set i d) i d = d := by
  unfold getOr
  rw [List.getElem?_set_eq_of_lt d hi]
  by_cases hd0 : d = 0 <;> simp [hd0]

theorem getOr_set_pair (l : List ℚ) (i j : ℕ) (d : ℚ) :
    getOr (l.set i 0) j d = getOr (l.set i d) j d := by
  by_cases hji : j = i
  · subst hji
    by_cases hlen : j < l.length
    · rw [getOr_set_self_zero l j d hlen, getOr_set_value_eq_default l j d hlen]
    · rw [List.set_eq_of_length_le (by omega), List.set_eq_of_length_le (by omega)]
  · exact getOr_congr_of_getElem _ _ j d
      (by rw [List.getElem?_set_ne (by omega), List.getElem?_set_ne (by omega)])

theorem dcfYear_congr (p1 p2 : ProjectionLists) (t r rev0 : ℚ) (G : List ℚ)
    (hG1 : p1.revenueGrowth = G) (hG2 : p2.revenueGrowth = G)
    (hm : ∀ j, getOr p1.ebitdaMargin j (15/100) = getOr p2.ebitdaMargin j (15/100))
    (hd : ∀ j, getOr p1.depreciation j (dcfRevenue rev0 G (j + 1) * (3/100)) =
      getOr p2.depreciation j (dcfRevenue rev0 G (j + 1) * (3/100)))
    (hc : ∀ j, getOr p1.capex j (dcfRevenue rev0 G (j + 1) * (4/100)) =
      getOr p2.capex j (dcfRevenue rev0 G (j + 1) * (4/100)))
    (hw : ∀ j, getOr p1.workingCapitalChange j 0 = getOr p2.workingCapitalChange j 0)
    (j : ℕ) :
    dcfYear p1 t r (j + 1) (dcfRevenue rev0 G j) =
      dcfYear p2 t r (j + 1) (dcfRevenue rev0 G j) := by
  simp only [dcfYear, hG1, hG2, Nat.add_sub_cancel]
  rw [hm j, hw j]
  rw [show dcfRevenue rev0 G j * (1 + getOr G j 0) = dcfRevenue rev0 G (j + 1)
    from rfl]
  rw [hd j, hc j]

theorem dcfRecords_congr (p1 p2 : ProjectionLists) (t r rev0 : ℚ) (G : List ℚ)
    (hG1 : p1.revenueGrowth = G) (hG2 : p2.revenueGrowth = G)
    (hm : ∀ j, getOr p1.ebitdaMargin j (15/100) = getOr p2.ebitdaMargin j (15/100))
    (hd : ∀ j, getOr p1.depreciation j (dcfRevenue rev0 G (j + 1) * (3/100)) =
      getOr p2.depreciation j (dcfRevenue rev0 G (j + 1) * (3/100)))
    (hc : ∀ j, getOr p1.capex j (dcfRevenue rev0 G (j + 1) * (4/100)) =
      getOr p2.capex j (dcfRevenue rev0 G (j + 1) * (4/100)))
    (hw : ∀ j,
      getOr p1.workingCapitalChange j 0 = getOr p2.workingCapitalChange j 0) :
    ∀ n j, dcfRecords p1 t r n (j + 1) (dcfRevenue rev0 G j) =
      dcfRecords p2 t r n (j + 1) (dcfRevenue rev0 G j) := by
  intro n
  induction n with
  | zero => intro j; rfl
  | succ k ih =>
    intro j
    have hyear := dcfYear_congr p1 p2 t r rev0 G hG1 hG2 hm hd hc hw j
    show dcfYear p1 t r (j + 1) (dcfRevenue rev0 G j) ::
        dcfRecords p1 t r k (j + 1 + 1)
          (dcfYear p1 t r (j + 1) (dcfRevenue rev0 G j)).revenue =
      dcfYear p2 t r (j + 1) (dcfRevenue rev0 G j) ::
        dcfRecords p2 t r k (j + 1 + 1)
          (dcfYear p2 t r (j + 1) (dcfRevenue rev0 G j)).revenue
    rw [hyear]
    have hrev2 : (dcfYear p2 t r (j + 1) (dcfRevenue rev0 G j)).revenue =
        dcfRevenue rev0 G (j + 1) := by
      show dcfRevenue rev0 G j * (1 + getOr p2.revenueGrowth ((j + 1) - 1) 0) = _
      rw [hG2, Nat.add_sub_cancel]
      rfl
    rw [hrev2]
    rw [ih (j + 1)]

theorem calculateDCFCore_congr (snap : FinancialSnapshot)
    (p1 p2 : ProjectionLists) (cfg : DCFConfig) (G : List ℚ)
    (hG1 : p1.revenueGrowth = G) (hG2 : p2.revenueGrowth = G)
    (hm : ∀ j, getOr p1.ebitdaMargin j (15/100) = getOr p2.ebitdaMargin j (15/100))
    (hd : ∀ j,
      getOr p1.depreciation j (dcfRevenue snap.revenue G (j + 1) * (3/100)) =
      getOr p2.depreciation j (dcfRevenue snap.revenue G (j + 1) * (3/100)))
    (hc : ∀ j, getOr p1.capex j (dcfRevenue snap.revenue G (j + 1) * (4/100)) =
      getOr p2.capex j (dcfRevenue snap.revenue G (j + 1) * (4/100)))
    (hw : ∀ j,
      getOr p1.workingCapitalChange j 0 = getOr p2.workingCapitalChange j 0) :
    calculateDCFCore snap p1 cfg = calculateDCFCore snap p2 cfg := by
  have hrecs : dcfRecords p1 cfg.taxRate cfg.discountRate cfg.projectionYears 1
      snap.revenue =
      dcfRecords p2 cfg.taxRate cfg.discountRate cfg.projectionYears 1
        snap.revenue := by
    have := dcfRecords_congr p1 p2 cfg.taxRate cfg.discountRate snap.revenue G
      hG1 hG2 hm hd hc hw cfg.projectionYears 0
    have e1 : (0:ℕ) + 1 = 1 := rfl
    have e4 : dcfRevenue snap.revenue G 0 = snap.revenue := rfl
    rw [e1, e4] at this
    exact this
  unfold calculateDCFCore
  rw [hrecs]

/-- C9: a per-year assumption entry that is exactly zero never enters the
cash-flow recurrences — the run is identical to the run with that entry
replaced by its `||`-default: 0.15 for a zero ebitdaMargin entry,
revenue_y × 3% for a zero depreciation entry, revenue_y × 4% for a zero
capex entry (the same defaults a missing entry receives). -/
theorem dcf_zero_entry_defaults (snap : FinancialSnapshot) (p : ProjectionLists)
    (cfg : DCFConfig) (i : ℕ) :
    calculateDCF snap
        ⟨some p.revenueGrowth, some (p.ebitdaMargin.set i 0), some p.depreciation,
          some p.capex, some p.workingCapitalChange⟩ cfg =
      calculateDCF snap
        ⟨some p.revenueGrowth, some (p.ebitdaMargin.set i (15/100)),
          some p.depreciation, some p.capex, some p.workingCapitalChange⟩ cfg ∧
    calculateDCF snap
        ⟨some p.revenueGrowth, some p.ebitdaMargin, some (p.depreciation.set i 0),
          some p.capex, some p.workingCapitalChange⟩ cfg =
      calculateDCF snap
        ⟨some p.revenueGrowth, some p.ebitdaMargin,
          some (p.depreciation.set i
            (dcfRevenue snap.revenue p.revenueGrowth (i + 1) * (3/100))),
          some p.capex, some p.workingCapitalChange⟩ cfg ∧
    calculateDCF snap
        ⟨some p.revenueGrowth, some p.ebitdaMargin, some p.depreciation,
          some (p.capex.set i 0), some p.workingCapitalChange⟩ cfg =
      calculateDCF snap
        ⟨some p.revenueGrowth, some p.ebitdaMargin, some p.depreciation,
          some (p.capex.set i
            (dcfRevenue snap.revenue p.revenueGrowth (i + 1) * (4/100))),
          some p.workingCapitalChange⟩ cfg := by
  unfold calculateDCF
  by_cases hN : cfg.projectionYears = 0
  · simp only [if_pos hN]
    exact ⟨trivial, trivial, trivial⟩
  · simp only [if_neg hN]
    refine ⟨congrArg Except.ok ?_, congrArg Except.ok ?_, congrArg Except.ok ?_⟩
    · exact calculateDCFCore_congr snap _ _ cfg p.revenueGrowth rfl rfl
        (fun j => getOr_set_pair p.ebitdaMargin i j (15/100))
        (fun j => rfl) (fun j => rfl) (fun j => rfl)
    · exact calculateDCFCore_congr snap _ _ cfg p.revenueGrowth rfl rfl
        (fun j => rfl)
        (fun j => by
          by_cases hji : j = i
          · subst hji
            exact getOr_set_pair p.depreciation j j _
          · exact getOr_congr_of_getElem _ _ j _
              (by rw [List.getElem?_set_ne (by omega),
                List.getElem?_set_ne (by omega)]))
        (fun j => rfl) (fun j => rfl)
    · exact calculateDCFCore_congr snap _ _ cfg p.revenueGrowth rfl rfl
        (fun j => rfl) (fun j => rfl)
        (fun j => by
          by_cases hji : j = i
          · subst hji
            exact getOr_set_pair p.capex j j _
          · exact getOr_congr_of_getElem _ _ j _
              (by rw [List.getElem?_set_ne (by omega),
                List.getElem?_set_ne (by omega)]))
        (fun j => rfl)

/-! ## The Monte-Carlo rate draws (C7) -/

theorem normalRandom_one (mean std u2 : ℝ) : normalRandom mean std 1 u2 = mean := by
  unfold normalRandom
  rw [Real.log_one]
  norm_num

/-- C7 counterexample: at the concrete uniform draw u = 1 (and Box–Muller
uniforms u1 = 1, u2 = 0, where the Box–Muller sample is exactly 0), the
discount rate the code draws from base 10% is 12% — a uniform ±2% shift —
while the spec's Box–Muller draw is 10%; likewise the terminal-growth draw
from base 2.5% is 3.5% against the spec's 2.5%. -/
theorem mc_rate_draws_differ_from_box_muller :
    mcRandomDiscountRate (1/10) 1 = 12/100 ∧
    specDiscountRateDraw (1/10) 1 0 = 1/10 ∧
    mcRandomDiscountRate (1/10) 1 ≠ specDiscountRateDraw (1/10) 1 0 ∧
    mcRandomTerminalGrowth (1/40) 1 = 35/1000 ∧
    specTerminalGrowthDraw (1/40) 1 0 = 1/40 ∧
    mcRandomTerminalGrowth (1/40) 1 ≠ specTerminalGrowthDraw (1/40) 1 0 := by
  have h1 : mcRandomDiscountRate (1/10) 1 = 12/100 := by
    unfold mcRandomDiscountRate
    rw [max_eq_right (by norm_num)]
    norm_num
  have h2 : specDiscountRateDraw (1/10) 1 0 = 1/10 := by
    unfold specDiscountRateDraw
    rw [normalRandom_one]
    rw [max_eq_right (by norm_num)]
    norm_num
  have h3 : mcRandomTerminalGrowth (1/40) 1 = 35/1000 := by
    unfold mcRandomTerminalGrowth
    rw [min_eq_right (by norm_num), max_eq_right (by norm_num)]
    norm_num
  have h4 : specTerminalGrowthDraw (1/40) 1 0 = 1/40 := by
    unfold specTerminalGrowthDraw
    rw [normalRandom_one]
    rw [min_eq_right (by norm_num), max_eq_right (by norm_num)]
    norm_num
  refine ⟨h1, h2, ?_, h3, h4, ?_⟩
  · rw [h1, h2]; norm_num
  · rw [h3, h4]; norm_num

/-- C7 (amended): the per-iteration rates are uniform shifts of the base
rates, not Box–Muller normal samples: for u in [0,1] the drawn discount rate
is `max (5%, base + (u − ½)·4%)`, hence clamped below at 5% and confined to
the band [base − 2%, base + 2%] (up to the clamp); the drawn terminal growth
is `base + (u − ½)·2%` clamped to [0%, 5%], confined to the band
[base − 1%, base + 1%] (up to the clamps).  Box–Muller sampling
(`normalRandom`) is used only for the per-year projection draws. -/
theorem mc_rate_draw_uniform_bounds (base u : ℝ) (h0 : 0 ≤ u) (h1 : u ≤ 1) :
    (5/100 : ℝ) ≤ mcRandomDiscountRate base u ∧
    max (5/100) (base - 2/100) ≤ mcRandomDiscountRate base u ∧
    mcRandomDiscountRate base u ≤ max (5/100) (base + 2/100) ∧
    (0 : ℝ) ≤ mcRandomTerminalGrowth base u ∧
    mcRandomTerminalGrowth base u ≤ 5/100 ∧
    max 0 (min (5/100) (base - 1/100)) ≤ mcRandomTerminalGrowth base u ∧
    mcRandomTerminalGrowth base u ≤ max 0 (min (5/100) (base + 1/100)) := by
  have hd1 : base - 2/100 ≤ base + (u - 1/2) * (4/100) := by nlinarith
  have hd2 : base + (u - 1/2) * (4/100) ≤ base + 2/100 := by nlinarith
  have ht1 : base - 1/100 ≤ base + (u - 1/2) * (2/100) := by nlinarith
  have ht2 : base + (u - 1/2) * (2/100) ≤ base + 1/100 := by nlinarith
  unfold mcRandomDiscountRate mcRandomTerminalGrowth
  refine ⟨le_max_left _ _, max_le_max le_rfl hd1, max_le_max le_rfl hd2,
    le_max_left _ _, ?_, max_le_max le_rfl (min_le_min le_rfl ht1),
    max_le_max le_rfl (min_le_min le_rfl ht2)⟩
  exact max_le (by norm_num) (min_le_left _ _)

/-- Concrete check of C7's amended bounds at base 10%, u = 1. -/
theorem mc_rate_draw_uniform_bounds_check :
    (5/100 : ℝ) ≤ mcRandomDiscountRate (1/10) 1 ∧
    mcRandomDiscountRate (1/10) 1 ≤ max (5/100) ((1/10 : ℝ) + 2/100) := by
  have h := mc_rate_draw_uniform_bounds (1/10) 1 (by norm_num) (by norm_num)
  exact ⟨h.1, h.2.2.1⟩

/-! ## Batch error isolation (C8) -/

theorem filterMap_length_filter {α β : Type} (f : α → Option β) :
    ∀ l : List α,
      (l.filterMap f).length = (l.filter fun a => (f a).isSome).length := by
  intro l
  induction l with
  | nil => rfl
  | cons x xs ih =>
    cases h : f x <;>
      simp [List.filterMap_cons, List.filter_cons, h, ih]

theorem sensitivityPairs_length (outer inner : List ℚ) :
    (sensitivityPairs outer inner).length = outer.length * inner.length := by
  unfold sensitivityPairs
  induction outer with
  | nil => simp
  | cons a as ih =>
    simp only [List.flatMap_cons, List.length_append, List.length_map,
      List.length_cons, ih]
    ring

theorem exceptMapList_all_ok {α β : Type} (f : α → Except String β) :
    ∀ l : List α, (∀ x ∈ l, (f x).toOption.isSome) →
      ((exceptMapList f l).toOption.map List.length) = some l.length := by
  intro l
  induction l with
  | nil => intro _; rfl
  | cons x xs ih =>
    intro hall
    have hx := hall x (by simp)
    have hrest := ih fun y hy => hall y (by simp [hy])
    cases hfx : f x with
    | error e => rw [hfx] at hx; simp [Except.toOption] at hx
    | ok b =>
      cases hrec : exceptMapList f xs with
      | error e => rw [hrec] at hrest; simp [Except.toOption] at hrest
      | ok bs =>
        rw [hrec] at hrest
        show ((exceptMapList f (x :: xs)).toOption.map List.length) =
          some (xs.length + 1)
        simp only [exceptMapList, hfx, hrec, Except.toOption]
        have hlen : bs.length = xs.length := by
          simpa [Except.toOption] using hrest
        simp [hlen]

/-- C8 counterexample: a DCF sensitivity grid over two discount rates where
the projections lack the workingCapitalChange array — the first cell's
exception is NOT caught: the whole grid aborts with the error instead of
returning a grid with that cell absent. -/
theorem except_map_toOption_isSome {α β : Type} (g : α → β)
    (e : Except String α) :
    (Except.map g e).toOption.isSome = e.toOption.isSome := by
  cases e <;> rfl

theorem dcf_sensitivity_uncaught_cell_failure :
    dcfSensitivity exSnapshot brokenProjections exCfg [2/25, 9/100] [3/200] =
      .error dcfErrorMsg := rfl

/-- C8 (amended): both Monte-Carlo loops and the LBO sensitivity grid catch
per-sample exceptions — the reported `simulations` (and the LBO grid's row
count) equal the number of successful evaluations, never more than the
requested count — and a well-formed DCF sensitivity grid returns its full
row count; but the DCF sensitivity grid has no per-cell catch: a throwing
cell aborts the whole grid (see the counterexample). -/
theorem batch_error_isolation (snap : FinancialSnapshot) (cfg : DCFConfig)
    (draws : List DCFDraw) (lcfg : LBOConfig) (ldraws : List LBOParams)
    (p : LBOParams) (exitMultiples growthRates : List ℚ) (pl : ProjectionLists)
    (discountRates terminalGrowthRates : List ℚ)
    (hN : 0 < cfg.projectionYears) :
    (monteCarloDCF snap cfg draws).simulations =
        (draws.filter fun dr =>
          (calculateDCF snap (toProjections dr.proj)
            (withRates cfg dr.discountRate dr.terminalGrowthRate)).toOption.isSome).length ∧
    (monteCarloDCF snap cfg draws).simulations ≤ draws.length ∧
    (monteCarioLBO lcfg ldraws).simulations =
        (ldraws.filter fun q => (calculateLBO q lcfg).toOption.isSome).length ∧
    (monteCarioLBO lcfg ldraws).simulations ≤ ldraws.length ∧
    (lboSensitivity p lcfg exitMultiples growthRates).length =
        ((sensitivityPairs exitMultiples growthRates).filter fun pr =>
          (calculateLBO (lboSensParams p lcfg pr.1 pr.2) lcfg).toOption.isSome).length ∧
    (lboSensitivity p lcfg exitMultiples growthRates).length ≤
        exitMultiples.length * growthRates.length ∧
    ((dcfSensitivity snap (toProjections pl) cfg discountRates
        terminalGrowthRates).toOption.map List.length) =
      some (discountRates.length * terminalGrowthRates.length) := by
  refine ⟨?_, ?_, ?_, ?_, ?_, ?_, ?_⟩
  · show (draws.filterMap _).length = _
    rw [filterMap_length_filter]
    simp only [Option.isSome_map']
  · show (draws.filterMap _).length ≤ _
    rw [filterMap_length_filter]
    exact List.length_filter_le _ _
  · show (ldraws.filterMap _).length = _
    rw [filterMap_length_filter]
    simp only [Option.isSome_map']
  · show (ldraws.filterMap _).length ≤ _
    rw [filterMap_length_filter]
    exact List.length_filter_le _ _
  · show ((sensitivityPairs exitMultiples growthRates).filterMap _).length = _
    rw [filterMap_length_filter]
    simp only [Option.isSome_map']
  · show ((sensitivityPairs exitMultiples growthRates).filterMap _).length ≤ _
    rw [filterMap_length_filter]
    calc ((sensitivityPairs exitMultiples growthRates).filter _).length
        ≤ (sensitivityPairs exitMultiples growthRates).length :=
          List.length_filter_le _ _
      _ = exitMultiples.length * growthRates.length :=
          sensitivityPairs_length exitMultiples growthRates
  · unfold dcfSensitivity
    rw [exceptMapList_all_ok _ _ fun pr hpr => by
      rw [except_map_toOption_isSome]
      exact calculateDCF_toProjections_isSome snap pl (withRates cfg pr.1 pr.2)
        (by simpa [withRates] using hN)]
    rw [sensitivityPairs_length]

/-- Concrete check of C8's amended grid-completeness clause: a 1 × 1
well-formed DCF sensitivity grid returns exactly one row. -/
theorem batch_error_isolation_check :
    ((dcfSensitivity exSnapshot (toProjections exLists) exCfg [1/10]
        [1/40]).toOption.map List.length) = some 1 := by
  have h := batch_error_isolation exSnapshot exCfg [] exLBOCfg [] exLBOParams
    [] [] exLists [1/10] [1/40] (by norm_num [exCfg])
  simpa using h.2.2.2.2.2.2

end FinModel
